import Mathlib

/-!
Verification development for the RTEgdbData utility (GDB Remote Serial
Protocol client transferring the g_rtedbg logging structure from an embedded
target to a host file).

The C sources are shallowly embedded:
  * machine integers (uint32_t, unsigned char) become Nat with explicit
    reduction mod 2^32 or mod 256 where the C code relies on wrap-around;
  * the target memory seen through the GDB server becomes a byte map
    Nat -> Nat (each read value is taken mod 256);
  * fallible socket and file operations become explicit outcome flags in an
    environment record, and functions return error codes exactly as the C
    control flow does;
  * sprintf-style hexadecimal formatting is embedded by functions building
    the exact character lists the format strings produce.
-/

/- ===================================================================
   Hexadecimal codec (gdb_lib.cpp: get_hex_digit, sprintf %x / %X)
   =================================================================== -/

/-- Byte value of a character, as read through a C char buffer. -/
def charByte (c : Char) : Nat := c.toNat % 256

/-- Value of one hexadecimal character, mirroring the branch ladder inside
the loop of get_hex_digit: decimal digits, upper case letters, lower case
letters, anything else is an error. -/
def hex_char_value (c : Char) : Option Nat :=
  let n := c.toNat
  if 48 ≤ n ∧ n ≤ 57 then some (n - 48)
  else if 65 ≤ n ∧ n ≤ 70 then some (n - 65 + 10)
  else if 97 ≤ n ∧ n ≤ 102 then some (n - 97 + 10)
  else none

/-- gdb_lib.cpp get_hex_digit: convert two hexadecimal characters to their
binary value 0..255, or -1 if either character is not a hex digit. -/
def get_hex_digit (c1 c2 : Char) : Int :=
  match hex_char_value c1 with
  | none => -1
  | some v1 =>
    match hex_char_value c2 with
    | none => -1
    | some v2 => Int.ofNat (16 * v1 + v2)

/-- Decode the first two characters of a buffer with get_hex_digit; a buffer
shorter than two characters is malformed. -/
def decode_hex_pair (l : List Char) : Int :=
  match l with
  | c1 :: c2 :: _ => get_hex_digit c1 c2
  | _ => -1

/-- Hexadecimal digit character for k in 0..15; lower selects the letter case
of the printf x conversion (true) or the X conversion (false). -/
def hexChar (lower : Bool) (k : Nat) : Char :=
  if k < 10 then Char.ofNat (48 + k)
  else Char.ofNat ((if lower then 87 else 55) + k)

/-- Hexadecimal digits of n, most significant first, empty for 0.  The first
argument is recursion fuel; n itself is always enough fuel. -/
def hexDigitsAux (lower : Bool) : Nat → Nat → List Char
  | 0, _ => []
  | _ + 1, 0 => []
  | fuel + 1, n + 1 =>
      hexDigitsAux lower fuel ((n + 1) / 16) ++ [hexChar lower ((n + 1) % 16)]

/-- The printf %0wx / %0wX conversion of n: hexadecimal digits padded with
leading zeros to a minimal width w. -/
def hexPad (lower : Bool) (w n : Nat) : List Char :=
  let d := hexDigitsAux lower n n
  List.replicate (w - d.length) '0' ++ d

/- ===================================================================
   RSP frame construction
   (gdb_lib.cpp: read_memory_packet, write_memory_packet, gdb_send_command)
   =================================================================== -/

/-- Checksum accumulation of the three frame builders: sum of the payload
characters kept in an unsigned char, so reduced mod 256 at every step. -/
def checksum8 (payload : List Char) : Nat :=
  payload.foldl (fun s c => (s + charByte c) % 256) 0

/-- The request frame built by read_memory_packet:
sprintf "$m%08x,%02x" of address and length, then "#%02x" of the checksum
over every character after the leading dollar. -/
def read_memory_packet_frame (address length : Nat) : List Char :=
  let payload :=
    'm' :: hexPad true 8 (address % 2 ^ 32) ++ ',' :: hexPad true 2 (length % 2 ^ 32)
  '$' :: payload ++ '#' :: hexPad true 2 (checksum8 payload)

/-- The request frame built by write_memory_packet:
sprintf "$M%08X,%04X:" of address and length, the data bytes as upper case
hex pairs, then "#%02X" of the checksum over the payload characters. -/
def write_memory_packet_frame (address : Nat) (data : List Nat) : List Char :=
  let payload :=
    'M' :: hexPad false 8 (address % 2 ^ 32) ++
      ',' :: hexPad false 4 (data.length % 2 ^ 32) ++
        ':' :: (data.map (fun b => hexPad false 2 (b % 256))).flatten
  '$' :: payload ++ '#' :: hexPad false 2 (checksum8 payload)

/-- The frame built by gdb_send_command: sprintf "$%s#%02X" of the command
text and the checksum over the command characters. -/
def gdb_send_command_frame (command : List Char) : List Char :=
  '$' :: command ++ '#' :: hexPad false 2 (checksum8 command)

/-- Is c a hexadecimal digit whose possible letter part is in the given
case (lower = true for a..f, lower = false for A..F)? -/
def isHexDigitCase (lower : Bool) (c : Char) : Bool :=
  (decide ('0' ≤ c) && decide (c ≤ '9')) ||
    (if lower then decide ('a' ≤ c) && decide (c ≤ 'f')
     else decide ('A' ≤ c) && decide (c ≤ 'F'))

/-- Numeric value of a hex digit character (0 for a non digit). -/
def hexValD (c : Char) : Nat := (hex_char_value c).getD 0

/-- Checks the frame shape claimed by the specification: the frame is
"$" PAYLOAD "#" HH where the two digits HH are hexadecimal digits of the
requested case and encode the sum of the payload bytes mod 256. -/
def frame_checksum_ok (lower : Bool) (f : List Char) : Bool :=
  match f.reverse with
  | d2 :: d1 :: '#' :: rev =>
    match rev.reverse with
    | '$' :: payload =>
      isHexDigitCase lower d1 && isHexDigitCase lower d2 &&
        (hexValD d1 * 16 + hexValD d2 == (payload.map charByte).sum % 256)
    | _ => false
  | _ => false

/- ===================================================================
   Capability negotiation
   (gdb_lib.cpp: parse_capability_data, calculate_max_message_sizes,
    gdb_connect; RTEgdbData.cpp: main)
   =================================================================== -/

/-- C strstr followed by using the found position: the suffix of the haystack
starting at the first occurrence of the needle, none when the needle does not
occur.  The needles used by the source are never empty. -/
def strstrDrop (needle : List Char) : List Char → Option (List Char)
  | [] => none
  | c :: t => if needle.isPrefixOf (c :: t) then some (c :: t) else strstrDrop needle t

/-- Accumulate a run of leading hexadecimal digits, as the %x conversion of
sscanf does once conversion has started. -/
def hexAccum : Nat → List Char → Nat
  | acc, [] => acc
  | acc, c :: t =>
    match hex_char_value c with
    | some v => hexAccum (acc * 16 + v) t
    | none => acc

/-- The sscanf %x conversion: skip blanks, then require at least one leading
hexadecimal digit and read the whole digit run.  (The optional 0x prefix of
%x is not modelled; the PacketSize values the source parses never carry
one, and the embedding assumes the parsed value fits in an unsigned.) -/
def scanHex (s : List Char) : Option Nat :=
  let s := s.dropWhile (fun c => c = ' ')
  match s with
  | c :: _ =>
    match hex_char_value c with
    | some _ => some (hexAccum 0 s)
    | none => none
  | [] => none

/-- gdb_lib.cpp parse_capability_data: reject the server when the capability
string does not contain "QStartNoAckMode+"; otherwise read the hexadecimal
PacketSize value into max_gdb_send_message_size, defaulting to
DEFAULT_MESSAGE_SIZE = 4096 when the field is missing or unparsable. -/
def parse_capability_data (recvbuf : List Char) : Option Nat :=
  match strstrDrop ("QStartNoAckMode+".toList) recvbuf with
  | none => none
  | some _ =>
    match strstrDrop ("PacketSize=".toList) recvbuf with
    | some rest =>
      match scanHex (rest.drop 11) with
      | some v => some v
      | none => some 4096
    | none => some 4096

/-- gdb_lib.cpp calculate_max_message_sizes: cap the send size at
TCP_BUFF_LENGTH = 65535, let the receive size be the send size unless the
-msgsize command line argument (userMax, 0 when absent) overrides it, and
derive the memory read / write packet sizes, both made divisible by 4.
Returns (max send message size, max memo read size, max memo write size). -/
def calculate_max_message_sizes (sendSize userMax : Nat) : Nat × Nat × Nat :=
  let send := if sendSize > 65535 then 65535 else sendSize
  let recv := if userMax ≠ 0 then (if userMax > 65535 then 65535 else userMax) else send
  (send, ((recv - 4) / 8) * 4, ((send - 16 - 4) / 8) * 4)

/-- The composition run by gdb_check_server_capabilities on the received
capability string: parse, then derive the message sizes. -/
def gdb_capability_sizes (resp : String) (userMax : Nat) : Option (Nat × Nat × Nat) :=
  match parse_capability_data resp.toList with
  | none => none
  | some sendSize => some (calculate_max_message_sizes sendSize userMax)

/-- Outcome of gdb_connect after the socket connection itself succeeded. -/
inductive ConnResult
  | ok (sizes : Nat × Nat × Nat)
  | unsupportedServer
  | noAckRefused
  deriving DecidableEq

/-- gdb_lib.cpp gdb_connect, from the point where the TCP connection is up:
query qSupported, parse the capability data (failure means the server does
not support QStartNoAckMode+), then request no-ack mode.  The second
component is the trace of command payloads sent to the server. -/
def gdb_connect_model (resp : String) (userMax : Nat) (noAckOk : Bool) :
    ConnResult × List String :=
  match parse_capability_data resp.toList with
  | none => (.unsupportedServer, ["qSupported"])
  | some sendSize =>
    if noAckOk then
      (.ok (calculate_max_message_sizes sendSize userMax), ["qSupported", "QStartNoAckMode"])
    else
      (.noAckRefused, ["qSupported", "QStartNoAckMode"])

/-- Is the command payload a memory-read (m) request? -/
def is_memory_read_packet (c : String) : Bool :=
  match c.toList with
  | 'm' :: _ => true
  | _ => false

/-- RTEgdbData.cpp main: a failed gdb_connect returns exit code 1 at once;
otherwise the rest of main runs (abstracted here as the pair restOfMain of
its exit code and the further command payloads it sends). -/
def main_model (resp : String) (userMax : Nat) (noAckOk : Bool)
    (restOfMain : Nat × List String) : Nat × List String :=
  match gdb_connect_model resp userMax noAckOk with
  | (.ok _, tr) => (restOfMain.1, tr ++ restOfMain.2)
  | (_, tr) => (1, tr)

/- ===================================================================
   Target memory and segmented memory read
   (gdb_lib.cpp: read_memory_packet guard logic, gdb_read_memory)
   =================================================================== -/

/-- Target memory as seen through the GDB server: a byte map.  Every read
takes the stored value mod 256. -/
def Mem : Type := Nat → Nat

/-- The n bytes at address a. -/
def readBytes (m : Mem) (a n : Nat) : List Nat :=
  (List.range n).map (fun i => m (a + i) % 256)

/-- Store one byte. -/
def writeByte (m : Mem) (a v : Nat) : Mem :=
  fun x => if x = a then v % 256 else m x

/-- Store a 32-bit word little endian, as the uint32_t stores of the
target structure do. -/
def writeWord (m : Mem) (a v : Nat) : Mem :=
  writeByte (writeByte (writeByte (writeByte m a v) (a + 1) (v / 256))
    (a + 2) (v / 65536)) (a + 3) (v / 16777216)

/-- Load a 32-bit word little endian. -/
def readWord (m : Mem) (a : Nat) : Nat :=
  m a % 256 + 256 * (m (a + 1) % 256) + 65536 * (m (a + 2) % 256) +
    16777216 * (m (a + 3) % 256)

/-- The four little-endian bytes of a 32-bit value. -/
def wordToBytes (v : Nat) : List Nat :=
  [v % 256, v / 256 % 256, v / 65536 % 256, v / 16777216 % 256]

/-- Fill n bytes starting at a with the constant byte v (the memset pattern
used when clearing the circular buffer). -/
def writeBytesConst (m : Mem) : Nat → Nat → Nat → Mem
  | _, 0, _ => m
  | a, n + 1, v => writeBytesConst (writeByte m a v) (a + 1) n v

/-- gdb_lib.cpp read_memory_packet, run against an honest server presenting
the fixed memory m: the source rejects a request whose response would not
fit the TCP buffer (length * 2 + 4 > TCP_BUFF_LENGTH) and a zero length;
otherwise the parsed response is exactly the requested bytes. -/
def read_memory_packet (m : Mem) (address length : Nat) : Option (List Nat) :=
  if length * 2 + 4 > 65535 ∨ length = 0 then none
  else some (readBytes m address length)

/-- The do-while loop of gdb_read_memory: read packets of at most maxRead
bytes until the requested amount has been read.  The first Nat is recursion
fuel; starting it at the remaining byte count is always enough because every
successful packet transfers at least one byte, and a zero-byte packet makes
read_memory_packet fail just as in the source. -/
def gdb_read_loop (m : Mem) (maxRead : Nat) : Nat → Nat → Nat → Option (List Nat)
  | _, _, 0 => some []
  | 0, _, _ + 1 => none
  | fuel + 1, address, r + 1 =>
    match read_memory_packet m address (min (r + 1) maxRead) with
    | none => none
    | some bs =>
      match gdb_read_loop m maxRead fuel (address + min (r + 1) maxRead)
          (r + 1 - min (r + 1) maxRead) with
      | none => none
      | some rest => some (bs ++ rest)

/-- gdb_lib.cpp gdb_read_memory against an honest server: reject a length
below 1 (the NULL buffer check has no counterpart for a value result), then
run the segmented transfer. -/
def gdb_read_memory (m : Mem) (address length maxRead : Nat) : Option (List Nat) :=
  if length < 1 then none
  else gdb_read_loop m maxRead length address length

/- ===================================================================
   The snapshot sequence
   (RTEgdbData.cpp: single_data_transfer and its callees)
   =================================================================== -/

/-- rtedbg.h rtedbg_header_t: the 24-byte header of the g_rtedbg structure,
fields at byte offsets 0, 4, 8, 12, 16, 20. -/
structure RteHeader where
  last_index : Nat
  filter : Nat
  rte_cfg : Nat
  timestamp_frequency : Nat
  filter_copy : Nat
  buffer_size : Nat

/-- Load the header from target memory at the structure start address. -/
def loadHeaderFrom (m : Mem) (a : Nat) : RteHeader :=
  { last_index := readWord m a
    filter := readWord m (a + 4)
    rte_cfg := readWord m (a + 8)
    timestamp_frequency := readWord m (a + 12)
    filter_copy := readWord m (a + 16)
    buffer_size := readWord m (a + 20) }

/-- The command line parameters the snapshot sequence reads (cmd_line.h
parameters_t, restricted to the fields single_data_transfer uses). -/
structure Params where
  start_address : Nat
  size : Nat
  filter : Nat
  set_filter : Bool
  clear_buffer : Bool

/-- MESSAGE_FILTER_ADDRESS: the filter word sits at offset 4 of the
structure. -/
def filterAddr (p : Params) : Nat := p.start_address + 4

/-- Environment of one snapshot run: the target memory at entry and the
outcome of each fallible socket / file operation.  fwWrite models a
firmware write to the filter word landing between the bulk read and the
filter check (the interference check_message_filter_disabled looks for). -/
structure Env where
  mem : Mem
  readFilterOk : Bool
  pauseOk : Bool
  loadHeaderOk : Bool
  saveReadOk : Bool
  fileOpenOk : Bool
  fileWriteOk : Bool
  fwWrite : Option Nat
  checkReadOk : Bool
  clearWriteOk : Bool
  eraseIndexOk : Bool
  restoreWriteOk : Bool

/-- Where a snapshot run stopped: the step whose failure ended it, or done. -/
inductive Stage
  | readFilter
  | pauseStep
  | loadHeader
  | checkHeader
  | saveStep
  | checkFilter
  | resetBuffer
  | restoreStep
  | done
  deriving DecidableEq

/-- Result of one snapshot run: the C return code (0 ok, 1 error), the final
target memory, the written output file content if any, whether
set_or_restore_message_filter was invoked, and the stage reached. -/
structure XferResult where
  ret : Nat
  mem : Mem
  outFile : Option (List Nat)
  restoreCalled : Bool
  stage : Stage

/-- RTEgdbData.cpp set_or_restore_message_filter, value computation: start
from the filter read before pausing, substitute filter_copy when that value
is zero and RTE_FILTER_OFF_ENABLED (rte_cfg bit 2) is set, then let a user
supplied -filter argument override everything. -/
def set_or_restore_message_filter_value (old_msg_filter filter_copy rte_cfg : Nat)
    (set_filter : Bool) (filter_param : Nat) : Nat :=
  let old_filter1 := old_msg_filter
  let old_filter2 :=
    if old_filter1 = 0 ∧ rte_cfg / 4 % 2 = 1 then filter_copy else old_filter1
  if set_filter then filter_param else old_filter2

/-- RTEgdbData.cpp check_header_info: the header is valid when
RTE_HEADER_SIZE = ((rte_cfg >> 24) & 0x7F) * 4 equals sizeof(header) = 24,
and the reserved bits (rte_cfg >> 5) & 7 and (rte_cfg >> 15) & 1 are 0. -/
def check_header_info (h : RteHeader) : Bool :=
  (h.rte_cfg / 16777216 % 128) * 4 == 24 &&
    h.rte_cfg / 32 % 8 == 0 && h.rte_cfg / 32768 % 2 == 0

/-- The filter value read by single_data_transfer before pausing
(old_msg_filter). -/
def sdt_old (e : Env) (p : Params) : Nat := readWord e.mem (filterAddr p)

/-- Memory after the conditional pause_data_logging (write a zero word over
the filter, only done when the filter was not already zero). -/
def sdt_mem1 (e : Env) (p : Params) : Mem :=
  if sdt_old e p ≠ 0 then writeWord e.mem (filterAddr p) 0 else e.mem

/-- The header loaded by load_rtedbg_structure_header. -/
def sdt_hdr (e : Env) (p : Params) : RteHeader :=
  loadHeaderFrom (sdt_mem1 e p) p.start_address

/-- The total structure size recomputed from the header:
buffer_size * 4 + sizeof(rtedbg_header_t). -/
def sdt_newSize (e : Env) (p : Params) : Nat := (sdt_hdr e p).buffer_size * 4 + 24

/-- parameters.size after load_rtedbg_structure_header: replaced by the
recomputed size when the command line size was 0 or differs from it. -/
def sdt_size (e : Env) (p : Params) : Nat :=
  if p.size = 0 ∨ sdt_newSize e p ≠ p.size then sdt_newSize e p else p.size

/-- The bytes the bulk read of save_rtedbg_structure obtains. -/
def sdt_data (e : Env) (p : Params) : List Nat :=
  readBytes (sdt_mem1 e p) p.start_address (sdt_size e p)

/-- The output file content: the read image with word 1 (bytes 4..7)
overlaid with old_msg_filter before fwrite. -/
def sdt_file (e : Env) (p : Params) : List Nat :=
  (sdt_data e p).take 4 ++ wordToBytes (sdt_old e p) ++ (sdt_data e p).drop 8

/-- The value set_or_restore_message_filter writes during this run. -/
def sdt_restore_value (e : Env) (p : Params) : Nat :=
  set_or_restore_message_filter_value (sdt_old e p) (sdt_hdr e p).filter_copy
    (sdt_hdr e p).rte_cfg p.set_filter p.filter

/-- Best-effort set_or_restore_message_filter: the write lands when the
socket write succeeds, otherwise the memory is unchanged. -/
def sdt_restore (e : Env) (p : Params) (m : Mem) : Mem :=
  if e.restoreWriteOk then writeWord m (filterAddr p) (sdt_restore_value e p) else m

/-- Memory after the possible firmware interference write to the filter. -/
def sdt_mem2 (e : Env) (p : Params) : Mem :=
  match e.fwWrite with
  | some v => writeWord (sdt_mem1 e p) (filterAddr p) v
  | none => sdt_mem1 e p

/-- single_shot_active: rte_cfg bit 0 (single shot active) and bit 3
(single shot compile-enabled) both set. -/
def sdt_singleShot (e : Env) (p : Params) : Prop :=
  (sdt_hdr e p).rte_cfg % 2 = 1 ∧ (sdt_hdr e p).rte_cfg / 8 % 2 = 1

instance (e : Env) (p : Params) : Decidable (sdt_singleShot e p) := by
  unfold sdt_singleShot; infer_instance

/-- Memory after the optional clear of the circular buffer region
(0xFF bytes over everything behind the header). -/
def sdt_mem3 (e : Env) (p : Params) : Mem :=
  if p.clear_buffer then
    writeBytesConst (sdt_mem2 e p) (p.start_address + 24) (sdt_size e p - 24) 255
  else sdt_mem2 e p

/-- Memory after the optional erase_buffer_index (zero word at offset 0). -/
def sdt_mem4 (e : Env) (p : Params) : Mem :=
  if p.clear_buffer ∨ sdt_singleShot e p then writeWord (sdt_mem3 e p) p.start_address 0
  else sdt_mem3 e p

/-- Memory after the final successful set_or_restore_message_filter. -/
def sdt_mem5 (e : Env) (p : Params) : Mem :=
  writeWord (sdt_mem4 e p) (filterAddr p) (sdt_restore_value e p)

/-- The first step of single_data_transfer that fails, in the order the
source tests them, or done when every step succeeds.  Each branch mirrors
one return 1 of the source:
  1. the read of the current filter,
  2. pause_data_logging (only reached when the filter was nonzero),
  3. load_rtedbg_structure_header (socket failure or a recomputed size
     outside [MIN_BUFFER_SIZE, MAX_BUFFER_SIZE], both return from it),
  4. check_header_info,
  5. save_rtedbg_structure (bulk read, file creation, file write),
  6. check_message_filter_disabled (socket failure or a nonzero filter),
  7. reset_circular_buffer (clear write or index erase),
  8. the final set_or_restore_message_filter. -/
def sdt_stage (e : Env) (p : Params) : Stage :=
  if ¬ e.readFilterOk then .readFilter
  else if sdt_old e p ≠ 0 ∧ ¬ e.pauseOk then .pauseStep
  else if ¬ e.loadHeaderOk then .loadHeader
  else if (p.size = 0 ∨ sdt_newSize e p ≠ p.size) ∧
      (sdt_size e p < 80 ∨ sdt_size e p > 2100000) then .loadHeader
  else if ¬ check_header_info (sdt_hdr e p) then .checkHeader
  else if ¬ (e.saveReadOk ∧ e.fileOpenOk ∧ e.fileWriteOk) then .saveStep
  else if ¬ e.checkReadOk ∨ readWord (sdt_mem2 e p) (filterAddr p) ≠ 0 then .checkFilter
  else if (p.clear_buffer ∧ ¬ e.clearWriteOk) ∨
      ((p.clear_buffer ∨ sdt_singleShot e p) ∧ ¬ e.eraseIndexOk) then .resetBuffer
  else if ¬ e.restoreWriteOk then .restoreStep
  else .done

/-- RTEgdbData.cpp single_data_transfer: read the filter, pause logging when
it was nonzero, load and validate the header, bulk-read and save the whole
image (restoring the filter on failure), check the filter stayed zero
(restoring on failure), reset the circular buffer, and finally restore or
set the filter.  The result is dispatched on the first failing step; the
memory and file values of each branch are the values the source leaves
behind at that return statement. -/
def single_data_transfer (e : Env) (p : Params) : XferResult :=
  match sdt_stage e p with
  | .readFilter => ⟨1, e.mem, none, false, .readFilter⟩
  | .pauseStep => ⟨1, e.mem, none, false, .pauseStep⟩
  | .loadHeader => ⟨1, sdt_mem1 e p, none, false, .loadHeader⟩
  | .checkHeader => ⟨1, sdt_mem1 e p, none, false, .checkHeader⟩
  | .saveStep => ⟨1, sdt_restore e p (sdt_mem1 e p), none, true, .saveStep⟩
  | .checkFilter => ⟨1, sdt_restore e p (sdt_mem2 e p), some (sdt_file e p), true, .checkFilter⟩
  | .resetBuffer =>
    ⟨1, if p.clear_buffer ∧ ¬ e.clearWriteOk then sdt_mem2 e p else sdt_mem3 e p,
      some (sdt_file e p), false, .resetBuffer⟩
  | .restoreStep => ⟨1, sdt_mem4 e p, some (sdt_file e p), true, .restoreStep⟩
  | .done => ⟨0, sdt_mem5 e p, some (sdt_file e p), true, .done⟩

/-- A concrete target with a valid header: rte_cfg = 0x06000000 (header size
6 words, reserved bits zero, no single shot, no firmware-off), buffer_size
= 100 words, filter = 5, everything else zero. -/
def memW : Mem :=
  writeWord (writeWord (writeWord (fun _ => 0) 8 100663296) 20 100) 4 5

/-- Concrete command line: structure at address 0, automatic size, no
-filter argument, no -clear. -/
def paramsW : Params := ⟨0, 0, 0, false, false⟩

/-- Environment in which every operation succeeds. -/
def envOk : Env := ⟨memW, true, true, true, true, true, true, none, true, true, true, true⟩

/-- Environment in which loading the header fails. -/
def envLoadFail : Env := { envOk with loadHeaderOk := false }

/-- Environment in which the bulk memory read fails. -/
def envSaveFail : Env := { envOk with saveReadOk := false }

/-- The filter precedence as the specification words it: the user supplied
explicit value if set, else filter_copy if the filter read before pausing
was zero and firmware-off is allowed, else that old filter value. -/
def restore_filter_precedence (old_msg_filter filter_copy rte_cfg : Nat)
    (set_filter : Bool) (filter_param : Nat) : Nat :=
  if set_filter then filter_param
  else if old_msg_filter = 0 ∧ rte_cfg / 4 % 2 = 1 then filter_copy
  else old_msg_filter

/- ===================================================================
   Script execution (gdb_lib.cpp: gdb_send_commands_from_file)
   =================================================================== -/

/-- The line loop of gdb_send_commands_from_file: empty lines are skipped,
lines starting with the hash character run internal_command (which never
aborts the loop), any other line is sent with gdb_execute_command and a
failure breaks out of the loop, skipping the remaining lines.  The result
lists the RSP lines handed to gdb_execute_command. -/
def run_command_lines (exec : String → Bool) : List String → List String
  | [] => []
  | l :: ls =>
    if l.length = 0 then run_command_lines exec ls
    else if l.toList.head? = some '#' then run_command_lines exec ls
    else if exec l then l :: run_command_lines exec ls
    else [l]

/-- gdb_lib.cpp gdb_send_commands_from_file: a NULL file name returns 0 at
once; a file that cannot be opened returns 1; otherwise the lines are
processed (openResult none models the failed fopen_s, exec the outcome of
gdb_execute_command per line) and the function returns 0 - also when a
failed command aborted the loop early. -/
def gdb_send_commands_from_file (cmd_file : Option String)
    (openResult : Option (List String)) (exec : String → Bool) : Nat × List String :=
  match cmd_file with
  | none => (0, [])
  | some _ =>
    match openResult with
    | none => (1, [])
    | some lines => (0, run_command_lines exec lines)

/- ===================================================================
   Lemmas and theorems
   =================================================================== -/

/- ===================================================================
   Lemmas about the checksum and the hex formatting
   =================================================================== -/

lemma checksum8_foldl (l : List Char) :
    ∀ a, a < 256 →
      l.foldl (fun s c => (s + charByte c) % 256) a = (a + (l.map charByte).sum) % 256 := by
  induction l with
  | nil => intro a ha; simp [Nat.mod_eq_of_lt ha]
  | cons c t ih =>
    intro a ha
    simp only [List.foldl_cons, List.map_cons, List.sum_cons]
    rw [ih ((a + charByte c) % 256) (Nat.mod_lt _ (by omega)), Nat.mod_add_mod]
    omega

lemma checksum8_eq_sum (l : List Char) :
    checksum8 l = (l.map charByte).sum % 256 := by
  simpa using checksum8_foldl l 0 (by omega)

lemma checksum8_lt (l : List Char) : checksum8 l < 256 := by
  rw [checksum8_eq_sum]; exact Nat.mod_lt _ (by omega)

set_option maxRecDepth 4096 in
lemma hexPad2_eq :
    ∀ lower : Bool, ∀ c < 256,
      hexPad lower 2 c = [hexChar lower (c / 16), hexChar lower (c % 16)] := by decide

lemma hexDigit_facts :
    ∀ lower : Bool, ∀ k < 16,
      isHexDigitCase lower (hexChar lower k) = true ∧ hexValD (hexChar lower k) = k := by decide

lemma frame_checksum_build (lower : Bool) (payload : List Char) :
    frame_checksum_ok lower ('$' :: payload ++ '#' :: hexPad lower 2 (checksum8 payload)) = true := by
  have hc := checksum8_lt payload
  rw [hexPad2_eq lower _ hc]
  have h1 := hexDigit_facts lower (checksum8 payload / 16) (by omega)
  have h2 := hexDigit_facts lower (checksum8 payload % 16) (by omega)
  have hrev : ('$' :: payload ++ '#' ::
      [hexChar lower (checksum8 payload / 16), hexChar lower (checksum8 payload % 16)]).reverse
      = hexChar lower (checksum8 payload % 16) :: hexChar lower (checksum8 payload / 16) ::
        '#' :: (payload.reverse ++ ['$']) := by
    simp
  unfold frame_checksum_ok
  rw [hrev]
  have hrev2 : (payload.reverse ++ ['$']).reverse = '$' :: payload := by simp
  simp only [hrev2]
  simp only [h1.1, h1.2, h2.1, h2.2, Bool.and_eq_true, beq_iff_eq, ← checksum8_eq_sum]
  refine ⟨⟨trivial, trivial⟩, ?_⟩
  omega

/- ===================================================================
   Claim C6 (frame checksums) and claim C9 (hex byte codec)
   =================================================================== -/

set_option maxRecDepth 4096 in
/-- C6, counterexample: the frame gdb_send_command builds for the command "m"
is "$m#6D" - the checksum digits come from the %02X conversion, so they are
upper case, not lower case as the claim states. -/
theorem c6_counterexample :
    gdb_send_command_frame ['m'] = ['$', 'm', '#', '6', 'D'] ∧
      frame_checksum_ok true (gdb_send_command_frame ['m']) = false := by decide

/-- C6, amended: every frame the client emits (memory-read request,
memory-write request, generic command packet) ends with the character
followed by two hexadecimal digits encoding the sum of the payload bytes
modulo 256; the digits are lower case for memory-read requests (%02x) and
upper case for memory-write requests and generic command packets (%02X). -/
theorem c6_frames_checksum :
    (∀ address length : Nat,
      frame_checksum_ok true (read_memory_packet_frame address length) = true) ∧
    (∀ (address : Nat) (data : List Nat),
      frame_checksum_ok false (write_memory_packet_frame address data) = true) ∧
    (∀ command : List Char,
      frame_checksum_ok false (gdb_send_command_frame command) = true) := by
  refine ⟨fun address length => ?_, fun address data => ?_, fun command => ?_⟩
  · exact frame_checksum_build true _
  · exact frame_checksum_build false _
  · exact frame_checksum_build false _

set_option maxRecDepth 8192 in
/-- C9: the two-character hex byte codec round-trips - for every byte b,
decoding the two-hex-digit encoding of b with get_hex_digit returns b (for
the lower case %02x encoding and the upper case %02X encoding alike), and
decoding the pair "GZ", which contains non-hex characters, returns -1. -/
theorem c9_hex_codec :
    (∀ b < 256,
      decode_hex_pair (hexPad true 2 b) = Int.ofNat b ∧
        decode_hex_pair (hexPad false 2 b) = Int.ofNat b) ∧
      decode_hex_pair ['G', 'Z'] = -1 := by decide

/-- C9, witness: the codec round-trips at the concrete byte 0xAB = 171. -/
theorem c9_hex_codec_witness :
    (171 : Nat) < 256 ∧ decode_hex_pair (hexPad true 2 171) = Int.ofNat 171 :=
  ⟨by decide, (c9_hex_codec.1 171 (by decide)).1⟩

set_option maxRecDepth 4096 in
/-- C3, counterexample: for the qSupported response
"QStartNoAckMode+;PacketSize=1000" with no -msgsize override the derived
sizes are not (0x1000, 2044, 2028): the write chunk size computed by
calculate_max_message_sizes is ((0x1000 - 16 - 4) / 8) * 4 = 2036, so the
value 2028 stated by the claim is wrong. -/
theorem c3_counterexample :
    gdb_capability_sizes "QStartNoAckMode+;PacketSize=1000" 0 ≠ some (4096, 2044, 2028) := by
  decide

set_option maxRecDepth 4096 in
/-- C3, amended: after parsing a qSupported response containing
QStartNoAckMode+;PacketSize=1000 with no user -msgsize override,
max_send_packet equals 0x1000 = 4096 and the derived chunk sizes are
max_memo_read = ((4096 - 4) / 8) * 4 = 2044 and
max_memo_write = ((4096 - 16 - 4) / 8) * 4 = 2036. -/
theorem c3_capability_sizes :
    gdb_capability_sizes "QStartNoAckMode+;PacketSize=1000" 0 = some (4096, 2044, 2036) := by
  decide

/-- C8: when the qSupported response does not contain the substring
QStartNoAckMode+, the connection attempt fails with the unsupported-server
error, main exits with code 1, and no memory-read (m) request is ever sent
to the server (the only payload sent is qSupported). -/
theorem c8_unsupported_server (resp : String) (userMax : Nat) (noAckOk : Bool)
    (restOfMain : Nat × List String)
    (h : strstrDrop ("QStartNoAckMode+".toList) resp.toList = none) :
    (gdb_connect_model resp userMax noAckOk).1 = ConnResult.unsupportedServer ∧
      main_model resp userMax noAckOk restOfMain = (1, ["qSupported"]) ∧
      ∀ c ∈ (main_model resp userMax noAckOk restOfMain).2, is_memory_read_packet c = false := by
  have hp : parse_capability_data resp.toList = none := by
    unfold parse_capability_data
    rw [h]
  refine ⟨?_, ?_, ?_⟩
  · unfold gdb_connect_model; rw [hp]
  · unfold main_model gdb_connect_model; rw [hp]
  · unfold main_model gdb_connect_model; rw [hp]
    intro c hc
    simp only [List.mem_singleton] at hc
    subst hc
    decide

set_option maxRecDepth 4096 in
/-- C8, witness: the scenario response "PacketSize=400" without
QStartNoAckMode+ makes main exit with code 1 after sending only
qSupported. -/
theorem c8_unsupported_server_witness :
    strstrDrop ("QStartNoAckMode+".toList) ("PacketSize=400".toList) = none ∧
      main_model "PacketSize=400" 0 true (0, []) = (1, ["qSupported"]) :=
  ⟨by decide, (c8_unsupported_server "PacketSize=400" 0 true (0, []) (by decide)).2.1⟩

lemma readBytes_add (m : Mem) (a p q : Nat) :
    readBytes m a (p + q) = readBytes m a p ++ readBytes m (a + p) q := by
  unfold readBytes
  rw [List.range_add, List.map_append, List.map_map]
  congr 1
  refine List.map_congr_left fun i _ => ?_
  simp [Function.comp, Nat.add_assoc]

lemma gdb_read_loop_eq (m : Mem) (maxRead : Nat) (h1 : 1 ≤ maxRead)
    (hb : maxRead ≤ 32765) :
    ∀ fuel r address, r ≤ fuel →
      gdb_read_loop m maxRead fuel address r = some (readBytes m address r) := by
  intro fuel
  induction fuel with
  | zero =>
    intro r address hr
    have : r = 0 := by omega
    subst this
    simp [gdb_read_loop, readBytes]
  | succ n ih =>
    intro r address hr
    match r with
    | 0 => simp [gdb_read_loop, readBytes]
    | r + 1 =>
      have hple : min (r + 1) maxRead ≤ r + 1 := Nat.min_le_left _ _
      have hpb : min (r + 1) maxRead ≤ 32765 := le_trans (Nat.min_le_right _ _) hb
      have hp1 : 1 ≤ min (r + 1) maxRead := le_min (by omega) h1
      have hpkt : read_memory_packet m address (min (r + 1) maxRead) =
          some (readBytes m address (min (r + 1) maxRead)) := by
        unfold read_memory_packet
        rw [if_neg (by omega)]
      have hrec := ih (r + 1 - min (r + 1) maxRead) (address + min (r + 1) maxRead) (by omega)
      unfold gdb_read_loop
      rw [hpkt, hrec]
      show some (readBytes m address (min (r + 1) maxRead) ++
          readBytes m (address + min (r + 1) maxRead) (r + 1 - min (r + 1) maxRead)) =
        some (readBytes m address (r + 1))
      rw [← readBytes_add]
      have hsum : min (r + 1) maxRead + (r + 1 - min (r + 1) maxRead) = r + 1 := by omega
      rw [hsum]

/-- C7, counterexample: with the fixed all-zero memory and N = 32766 bytes,
the transfer with chunk size 32766 fails (the single packet would exceed the
65535-byte TCP buffer, since 2 * 32766 + 4 = 65536), while the transfer with
chunk size 32764 succeeds, so the result is not independent of every
max_memo_read value of at least 4. -/
theorem c7_counterexample :
    gdb_read_memory (fun _ => 0) 0 32766 32766 = none ∧
      gdb_read_memory (fun _ => 0) 0 32766 32764 ≠ none := by
  constructor
  · rfl
  · have h : (gdb_read_memory (fun _ => 0) 0 32766 32764).isSome = true := rfl
    intro hc
    rw [hc] at h
    simp at h

/-- C7, amended: for every address, every length N with 0 < N and N at most
MAX_BUFFER_SIZE = 2100000, and every chunk size max_memo_read between 4 and
32765 (the largest chunk whose response fits the 65535-byte TCP buffer; the
sizes calculate_max_message_sizes derives never exceed 32764), the chunked
gdb_read_memory against a server presenting fixed memory contents returns
exactly the N bytes of that memory - so the result does not depend on the
chunk size. -/
theorem c7_read_chunking (m : Mem) (address length maxRead : Nat)
    (hl : 0 < length) (_hmax : length ≤ 2100000) (h4 : 4 ≤ maxRead)
    (hb : maxRead ≤ 32765) :
    gdb_read_memory m address length maxRead = some (readBytes m address length) := by
  unfold gdb_read_memory
  rw [if_neg (by omega)]
  exact gdb_read_loop_eq m maxRead (by omega) hb length length address (le_refl _)

/-- C7, witness: the chunked read of 5 bytes with chunk size 4 from the
all-zero memory returns the 5 bytes of that memory. -/
theorem c7_read_chunking_witness :
    0 < 5 ∧ (5 : Nat) ≤ 2100000 ∧ 4 ≤ 4 ∧ (4 : Nat) ≤ 32765 ∧
      gdb_read_memory (fun _ => 0) 0 5 4 = some (readBytes (fun _ => 0) 0 5) :=
  ⟨by decide, by decide, by decide, by decide,
    c7_read_chunking (fun _ => 0) 0 5 4 (by decide) (by decide) (by decide) (by decide)⟩

lemma writeWord_apply (m : Mem) (a v x : Nat) :
    writeWord m a v x =
      if x = a then v % 256
      else if x = a + 1 then v / 256 % 256
      else if x = a + 2 then v / 65536 % 256
      else if x = a + 3 then v / 16777216 % 256
      else m x := by
  unfold writeWord writeByte
  split_ifs <;> first | rfl | omega

lemma readWord_lt (m : Mem) (a : Nat) : readWord m a < 2 ^ 32 := by
  unfold readWord
  have h0 : m a % 256 < 256 := Nat.mod_lt _ (by omega)
  have h1 : m (a + 1) % 256 < 256 := Nat.mod_lt _ (by omega)
  have h2 : m (a + 2) % 256 < 256 := Nat.mod_lt _ (by omega)
  have h3 : m (a + 3) % 256 < 256 := Nat.mod_lt _ (by omega)
  have h32 : (2 : Nat) ^ 32 = 4294967296 := by norm_num
  omega

lemma writeWord_get (m : Mem) (a v k : Nat) (hk : k < 4) :
    writeWord m a v (a + k) = v / 256 ^ k % 256 := by
  rw [writeWord_apply]
  have e0 : (256 : Nat) ^ 0 = 1 := by norm_num
  have e1 : (256 : Nat) ^ 1 = 256 := by norm_num
  have e2 : (256 : Nat) ^ 2 = 65536 := by norm_num
  have e3 : (256 : Nat) ^ 3 = 16777216 := by norm_num
  interval_cases k <;> split_ifs <;> simp_all

lemma writeWord_keep (m : Mem) (a v x : Nat) (hx : x < a ∨ a + 3 < x) :
    writeWord m a v x = m x := by
  rw [writeWord_apply]
  split_ifs <;> first | rfl | omega

lemma readWord_writeWord_self (m : Mem) (a v : Nat) :
    readWord (writeWord m a v) a = v % 2 ^ 32 := by
  unfold readWord
  have g0 := writeWord_get m a v 0 (by omega)
  have g1 := writeWord_get m a v 1 (by omega)
  have g2 := writeWord_get m a v 2 (by omega)
  have g3 := writeWord_get m a v 3 (by omega)
  norm_num at g0 g1 g2 g3
  rw [g0, g1, g2, g3]
  have h32 : (2 : Nat) ^ 32 = 4294967296 := by norm_num
  omega

lemma readWord_writeWord_of_ne (m : Mem) (a v b : Nat) (h : b + 4 ≤ a ∨ a + 4 ≤ b) :
    readWord (writeWord m a v) b = readWord m b := by
  unfold readWord
  rw [writeWord_keep m a v b (by omega), writeWord_keep m a v (b + 1) (by omega),
    writeWord_keep m a v (b + 2) (by omega), writeWord_keep m a v (b + 3) (by omega)]

lemma single_data_transfer_success (e : Env) (p : Params)
    (h : (single_data_transfer e p).ret = 0) :
    single_data_transfer e p =
      ⟨0, sdt_mem5 e p, some (sdt_file e p), true, Stage.done⟩ := by
  unfold single_data_transfer at h ⊢
  revert h
  cases hst : sdt_stage e p <;> intro h <;>
    first | rfl | exact absurd h one_ne_zero

lemma single_data_transfer_stage (e : Env) (p : Params) :
    (single_data_transfer e p).stage = sdt_stage e p := by
  unfold single_data_transfer
  cases hst : sdt_stage e p <;> rfl

lemma sdt_size_ge (e : Env) (p : Params) : 24 ≤ sdt_size e p := by
  unfold sdt_size
  split_ifs with h
  · unfold sdt_newSize; omega
  · push_neg at h
    rw [← h.2]
    unfold sdt_newSize
    omega

/-- C1, counterexample: a run in which step 3 (loading the header) fails
returns the error code 1 without any call to set_or_restore_message_filter,
so a failure of steps 3-7 does not always trigger a best-effort filter
restore. -/
theorem c1_counterexample :
    (single_data_transfer envLoadFail paramsW).ret = 1 ∧
      (single_data_transfer envLoadFail paramsW).stage = Stage.loadHeader ∧
      (single_data_transfer envLoadFail paramsW).restoreCalled = false := by
  decide

/-- C1, amended: the best-effort set_or_restore_message_filter before an
error return happens exactly for failures of the bulk memory read
(save_rtedbg_structure) and of the filter-zero check
(check_message_filter_disabled); failures of header loading, header
validation and the circular-buffer reset return the error without restoring
the filter. -/
theorem c1_restore_on_failure (e : Env) (p : Params) :
    (((single_data_transfer e p).stage = Stage.saveStep ∨
        (single_data_transfer e p).stage = Stage.checkFilter) →
      (single_data_transfer e p).ret = 1 ∧
        (single_data_transfer e p).restoreCalled = true) ∧
    (((single_data_transfer e p).stage = Stage.loadHeader ∨
        (single_data_transfer e p).stage = Stage.checkHeader ∨
        (single_data_transfer e p).stage = Stage.resetBuffer) →
      (single_data_transfer e p).ret = 1 ∧
        (single_data_transfer e p).restoreCalled = false) := by
  unfold single_data_transfer
  cases hst : sdt_stage e p <;> simp

/-- C1, witness: a run failing at the bulk memory read returns 1 and did
attempt the filter restore. -/
theorem c1_restore_on_failure_witness :
    (single_data_transfer envSaveFail paramsW).ret = 1 ∧
      (single_data_transfer envSaveFail paramsW).restoreCalled = true :=
  (c1_restore_on_failure envSaveFail paramsW).1 (Or.inl (by decide))

/-- C4: set_or_restore_message_filter always writes the value chosen by the
precedence (1) user supplied filter if the set_filter flag is set, else
(2) filter_copy if the filter read before pausing was zero and the
firmware-off configuration bit (rte_cfg bit 2) is set, else (3) the filter
read before pausing. -/
theorem c4_restore_filter_precedence (old copy cfg filt : Nat) (sf : Bool) :
    set_or_restore_message_filter_value old copy cfg sf filt =
      restore_filter_precedence old copy cfg sf filt := by
  unfold set_or_restore_message_filter_value restore_filter_precedence
  cases sf <;> simp

/-- C2: after a successful snapshot with no -filter=0 override, the filter
word on the target is nonzero iff the pre-call filter was nonzero, or
filter_copy was nonzero with the firmware-off configuration bit set, or the
user passed a nonzero filter override.  (filter_copy and rte_cfg are at
byte offsets 16 and 8 of the structure.) -/
theorem c2_final_filter_nonzero_iff (e : Env) (p : Params)
    (hret : (single_data_transfer e p).ret = 0)
    (hover : ¬ (p.set_filter = true ∧ p.filter = 0))
    (hfit : p.filter < 2 ^ 32) :
    readWord (single_data_transfer e p).mem (filterAddr p) ≠ 0 ↔
      (readWord e.mem (filterAddr p) ≠ 0 ∨
        (readWord e.mem (p.start_address + 16) ≠ 0 ∧
          readWord e.mem (p.start_address + 8) / 4 % 2 = 1) ∨
        (p.set_filter = true ∧ p.filter ≠ 0)) := by
  rw [single_data_transfer_success e p hret]
  show readWord (sdt_mem5 e p) (filterAddr p) ≠ 0 ↔ _
  unfold sdt_mem5
  rw [readWord_writeWord_self]
  have hcopy : (sdt_hdr e p).filter_copy = readWord e.mem (p.start_address + 16) := by
    show readWord (sdt_mem1 e p) (p.start_address + 16) = _
    unfold sdt_mem1
    split_ifs with h
    · exact readWord_writeWord_of_ne _ _ _ _ (by unfold filterAddr; omega)
    · rfl
  have hcfg : (sdt_hdr e p).rte_cfg = readWord e.mem (p.start_address + 8) := by
    show readWord (sdt_mem1 e p) (p.start_address + 8) = _
    unfold sdt_mem1
    split_ifs with h
    · exact readWord_writeWord_of_ne _ _ _ _ (by unfold filterAddr; omega)
    · rfl
  have holdlt : readWord e.mem (filterAddr p) < 2 ^ 32 := readWord_lt _ _
  have hcopylt : readWord e.mem (p.start_address + 16) < 2 ^ 32 := readWord_lt _ _
  unfold sdt_restore_value set_or_restore_message_filter_value sdt_old
  rw [hcopy, hcfg]
  by_cases hsf : p.set_filter = true
  · rw [if_pos hsf, Nat.mod_eq_of_lt hfit]
    have hfilt : p.filter ≠ 0 := fun h0 => hover ⟨hsf, h0⟩
    constructor
    · intro _
      exact Or.inr (Or.inr ⟨hsf, hfilt⟩)
    · intro _
      exact hfilt
  · rw [if_neg hsf]
    by_cases hO : readWord e.mem (filterAddr p) = 0
    · by_cases hB : readWord e.mem (p.start_address + 8) / 4 % 2 = 1
      · rw [if_pos ⟨hO, hB⟩, Nat.mod_eq_of_lt hcopylt]
        constructor
        · intro hC
          exact Or.inr (Or.inl ⟨hC, hB⟩)
        · rintro (h | ⟨hC, _⟩ | ⟨h, _⟩)
          · exact absurd hO h
          · exact hC
          · exact absurd h hsf
      · rw [if_neg (by tauto), Nat.mod_eq_of_lt holdlt]
        constructor
        · intro hx
          exact (hx hO).elim
        · rintro (hx | ⟨_, hB2⟩ | ⟨hx, _⟩)
          · exact hx
          · exact absurd hB2 hB
          · exact absurd hx hsf
    · rw [if_neg (by tauto), Nat.mod_eq_of_lt holdlt]
      constructor
      · intro _
        exact Or.inl hO
      · intro _
        exact hO

/-- C2, witness: in the all-success run on the concrete target (pre-call
filter 5, no override), the final filter word is nonzero iff one of the
three conditions holds. -/
theorem c2_final_filter_nonzero_iff_witness :
    readWord (single_data_transfer envOk paramsW).mem (filterAddr paramsW) ≠ 0 ↔
      (readWord envOk.mem (filterAddr paramsW) ≠ 0 ∨
        (readWord envOk.mem (paramsW.start_address + 16) ≠ 0 ∧
          readWord envOk.mem (paramsW.start_address + 8) / 4 % 2 = 1) ∨
        (paramsW.set_filter = true ∧ paramsW.filter ≠ 0)) :=
  c2_final_filter_nonzero_iff envOk paramsW (by decide) (by decide) (by decide)

/-- C5: every successful snapshot writes an output file whose bytes 4..7
(the filter word of the saved header, little endian) are exactly the filter
value read from the target before logging was paused. -/
theorem c5_saved_filter_word (e : Env) (p : Params)
    (hret : (single_data_transfer e p).ret = 0) :
    ∃ f, (single_data_transfer e p).outFile = some f ∧
      (f.drop 4).take 4 = wordToBytes (readWord e.mem (filterAddr p)) := by
  rw [single_data_transfer_success e p hret]
  refine ⟨sdt_file e p, rfl, ?_⟩
  have hlen : (sdt_data e p).length = sdt_size e p := by
    unfold sdt_data readBytes
    simp
  have h24 := sdt_size_ge e p
  have htake : ((sdt_data e p).take 4).length = 4 := by
    rw [List.length_take]
    omega
  have hword : (wordToBytes (sdt_old e p)).length = 4 := rfl
  unfold sdt_file
  rw [List.append_assoc, List.drop_left' htake, List.take_left' hword]
  rfl

/-- C5, witness: the all-success run on the concrete target produces a file
whose bytes 4..7 equal the little-endian pre-pause filter value. -/
theorem c5_saved_filter_word_witness :
    ∃ f, (single_data_transfer envOk paramsW).outFile = some f ∧
      (f.drop 4).take 4 = wordToBytes (readWord envOk.mem (filterAddr paramsW)) :=
  c5_saved_filter_word envOk paramsW (by decide)

/-- C10: gdb_send_commands_from_file returns 1 exactly when a command file
was given and could not be opened; in every other case it returns 0, even
when an RSP command fails mid-script - the failing line is the last one
attempted and the remaining lines are skipped - so an aborted script is
still reported to the caller as success. -/
theorem c10_command_file_return (cmd_file : Option String)
    (openResult : Option (List String)) (exec : String → Bool) :
    ((gdb_send_commands_from_file cmd_file openResult exec).1 = 1 ↔
      (cmd_file.isSome = true ∧ openResult = none)) ∧
    (∀ l ls, exec l = false → l.length ≠ 0 → l.toList.head? ≠ some '#' →
      run_command_lines exec (l :: ls) = [l]) := by
  constructor
  · cases cmd_file <;> cases openResult <;>
      simp [gdb_send_commands_from_file]
  · intro l ls hexec hlen hhash
    unfold run_command_lines
    rw [if_neg hlen, if_neg hhash, if_neg (by simp [hexec])]

/-- C10, witness: a failing command aborts the script after itself and the
overall return value of the run is 0. -/
theorem c10_command_file_return_witness :
    run_command_lines (fun l => decide (l = "ok")) ["bad", "next"] = ["bad"] :=
  (c10_command_file_return (some "1.cmd") (some ["bad", "next"])
    (fun l => decide (l = "ok"))).2 "bad" ["next"] (by decide) (by decide) (by decide)
